import Mathlib

/-!
Verification of the iceberg state-transition core: a shallow embedding of
`src/backend/program/state_transition.py` (the event router `process_event`)
and the relevant parts of `src/backend/program/program.py` (the dispatcher
loop guard, the worker-pool result callback and `Program.validate`),
together with theorems checking the natural-language specification
against this embedding.

The media-item data model (`program/media/item.py`, `program/media/state.py`)
and the service capability probes (`Scraping.can_we_scrape`,
`TraktIndexer.should_submit`, `Symlinker.should_submit`) are not part of the
source tree; they are modelled from the specification, as marked on each
definition.
-/

namespace Iceberg

/-- The closed set of item states, from the spec §4.2 (``program/media/state.py``). -/
inductive States where
  | Unknown
  | Indexed
  | Scraped
  | Downloaded
  | Symlinked
  | Completed
  | PartiallyCompleted
deriving DecidableEq, Repr

/-- The services the router and dispatcher mention, by class identity.
`Program` stands for the `Program` class itself, used as the emitter of
retry-sweep and externally enqueued events (the spec's `Self` sentinel). -/
inductive Service where
  | Overseerr
  | PlexWatchlist
  | Listrr
  | Mdblist
  | SymlinkLibrary
  | TraktContent
  | PlexLibrary
  | TraktIndexer
  | Scraping
  | Downloader
  | Symlinker
  | PlexUpdater
  | Program
deriving DecidableEq, Repr

/-- The attribute header shared by every media item, restricted to the fields
that the router, the dispatcher and the state classifier actually read.
`known_to_library` and `has_viable_torrent` are the classifier inputs the
spec describes as "known to the library" and "has at least one viable
torrent selected". -/
structure Attrs where
  item_id : String
  title : Option String
  indexed_at : Option Nat
  scraped_times : Nat
  file : Option String
  folder : Option String
  symlinked : Bool
  known_to_library : Bool
  has_viable_torrent : Bool
deriving DecidableEq, Repr

/-- The media-item tree: Movie and Episode are leaves, Show holds seasons,
Season holds episodes and a back-pointer to its parent Show (used by the
router's Season promotion). Children lists hold arbitrary `MediaItem`s,
as the dynamically typed source does. -/
inductive MediaItem where
  | movie (attrs : Attrs)
  | show (attrs : Attrs) (seasons : List MediaItem)
  | season (attrs : Attrs) (episodes : List MediaItem) (parent : Option MediaItem)
  | episode (attrs : Attrs)

mutual

/-- Decidable equality of media items (the derive handler does not treat
nested inductives). -/
def decEqItem : (x y : MediaItem) → Decidable (x = y)
  | .movie a, .movie b =>
    match decEq a b with
    | isTrue h => isTrue (by rw [h])
    | isFalse h => isFalse (fun hh => h (by injection hh))
  | .movie _, .show _ _ => isFalse (fun h => MediaItem.noConfusion h)
  | .movie _, .season _ _ _ => isFalse (fun h => MediaItem.noConfusion h)
  | .movie _, .episode _ => isFalse (fun h => MediaItem.noConfusion h)
  | .show _ _, .movie _ => isFalse (fun h => MediaItem.noConfusion h)
  | .show a ss, .show b ts =>
    match decEq a b, decEqItemList ss ts with
    | isTrue h1, isTrue h2 => isTrue (by rw [h1, h2])
    | isFalse h1, _ => isFalse (fun hh => h1 (by injection hh))
    | _, isFalse h2 => isFalse (fun hh => h2 (by injection hh))
  | .show _ _, .season _ _ _ => isFalse (fun h => MediaItem.noConfusion h)
  | .show _ _, .episode _ => isFalse (fun h => MediaItem.noConfusion h)
  | .season _ _ _, .movie _ => isFalse (fun h => MediaItem.noConfusion h)
  | .season _ _ _, .show _ _ => isFalse (fun h => MediaItem.noConfusion h)
  | .season a es p, .season b fs q =>
    match decEq a b, decEqItemList es fs, decEqItemOpt p q with
    | isTrue h1, isTrue h2, isTrue h3 => isTrue (by rw [h1, h2, h3])
    | isFalse h1, _, _ => isFalse (fun hh => h1 (by injection hh))
    | _, isFalse h2, _ => isFalse (fun hh => h2 (by injection hh))
    | _, _, isFalse h3 => isFalse (fun hh => h3 (by injection hh))
  | .season _ _ _, .episode _ => isFalse (fun h => MediaItem.noConfusion h)
  | .episode _, .movie _ => isFalse (fun h => MediaItem.noConfusion h)
  | .episode _, .show _ _ => isFalse (fun h => MediaItem.noConfusion h)
  | .episode _, .season _ _ _ => isFalse (fun h => MediaItem.noConfusion h)
  | .episode a, .episode b =>
    match decEq a b with
    | isTrue h => isTrue (by rw [h])
    | isFalse h => isFalse (fun hh => h (by injection hh))

/-- Decidable equality of media-item lists. -/
def decEqItemList : (xs ys : List MediaItem) → Decidable (xs = ys)
  | [], [] => isTrue rfl
  | [], _ :: _ => isFalse (fun h => List.noConfusion h)
  | _ :: _, [] => isFalse (fun h => List.noConfusion h)
  | x :: xs, y :: ys =>
    match decEqItem x y, decEqItemList xs ys with
    | isTrue h1, isTrue h2 => isTrue (by rw [h1, h2])
    | isFalse h1, _ => isFalse (fun hh => h1 (by injection hh))
    | _, isFalse h2 => isFalse (fun hh => h2 (by injection hh))

/-- Decidable equality of optional media items. -/
def decEqItemOpt : (x y : Option MediaItem) → Decidable (x = y)
  | none, none => isTrue rfl
  | none, some _ => isFalse (fun h => Option.noConfusion h)
  | some _, none => isFalse (fun h => Option.noConfusion h)
  | some x, some y =>
    match decEqItem x y with
    | isTrue h => isTrue (by rw [h])
    | isFalse h => isFalse (fun hh => h (by injection hh))

end

instance : DecidableEq MediaItem := decEqItem

/-- The common attribute header of an item. -/
def attrsOf : MediaItem → Attrs
  | .movie a => a
  | .show a _ => a
  | .season a _ _ => a
  | .episode a => a

/-- Rewrite the common attribute header of an item in place. -/
def mapAttrs (f : Attrs → Attrs) : MediaItem → MediaItem
  | .movie a => .movie (f a)
  | .show a ss => .show (f a) ss
  | .season a es p => .season (f a) es p
  | .episode a => .episode (f a)

/-- `item.parent`: the Season back-pointer; `none` for items that carry no
parent pointer in this model. -/
def parentOf : MediaItem → Option MediaItem
  | .season _ _ p => p
  | _ => none

/-- Python truthiness of an optional string field (`None` and `""` are falsy),
as in `s.file and s.folder`. -/
def truthy : Option String → Bool
  | none => false
  | some s => s ≠ ""

/-- Modelled from the spec: leaf classification (§4.2) of
`program/media/state.py`, which is not under src/. -/
def leafState (a : Attrs) : States :=
  if a.symlinked then
    (if a.known_to_library then .Completed else .Symlinked)
  else if truthy a.file && truthy a.folder then .Downloaded
  else if a.has_viable_torrent then .Scraped
  else if a.indexed_at.isSome then .Indexed
  else .Unknown

/-- Modelled from the spec: container classification (§4.2) of
`program/media/state.py`, which is not under src/, as a function of the
children's states. -/
def containerState (a : Attrs) (cs : List States) : States :=
  if cs ≠ [] ∧ cs.all (· == .Completed) then .Completed
  else if cs ≠ [] ∧ cs.all (fun s =>
      s == .Completed || s == .Downloaded || s == .Scraped || s == .Symlinked) then
    (if cs.any (· == .Scraped) then .Scraped
     else if cs.any (· == .Downloaded) then .Downloaded
     else .Symlinked)
  else if cs.any (· == .Completed) && cs.any (· != .Completed) then .PartiallyCompleted
  else if (cs ≠ [] ∧ cs.all (· == .Indexed)) ∨ (cs = [] ∧ a.indexed_at.isSome) then .Indexed
  else .Unknown

mutual

/-- Modelled from the spec: the state classifier `item.state` (§4.2);
`program/media/item.py` is not under src/. -/
def state : MediaItem → States
  | .movie a => leafState a
  | .episode a => leafState a
  | .show a ss => containerState a (stateList ss)
  | .season a es _ => containerState a (stateList es)

/-- The states of a list of children, in order. -/
def stateList : List MediaItem → List States
  | [] => []
  | x :: xs => state x :: stateList xs

end

/-- The triple returned by `process_event`:
`(updated_item, next_service, items_to_submit)`. A submission slot holds an
`Option MediaItem` because the source's Season promotion writes
`item = item.parent`, which is `None` for a detached season. -/
structure ProcessedEvent where
  updated_item : Option MediaItem
  next_service : Option Service
  items_to_submit : List (Option MediaItem)
deriving DecidableEq

/-- A call to the router, together with its heap effect: `existing_after` is
the value of the caller's `existing_item` object once the call returns
(the source mutates it in place in the Indexed-merge branch). -/
structure RouterCall where
  result : ProcessedEvent
  existing_after : Option MediaItem
deriving DecidableEq

/-- Modelled from the spec: the capability probes `Scraping.can_we_scrape`,
`TraktIndexer.should_submit` and `Symlinker.should_submit` live in service
modules that are not under src/; the spec treats them as opaque class-level
predicates (§6), so they are parameters of the embedding. -/
structure Probes where
  can_we_scrape : MediaItem → Bool
  trakt_should_submit : MediaItem → Bool
  symlink_should_submit : MediaItem → Bool

/-- `source_services` from `state_transition.py` line 23 (PlexLibrary is a
special case and the `Program` class is absent). -/
def sourceServices : List Service :=
  [.Overseerr, .PlexWatchlist, .Listrr, .Mdblist, .SymlinkLibrary, .TraktContent]

/-- `no_further_processing = (None, None, [])`. -/
def noFurtherProcessing : ProcessedEvent := ⟨none, none, []⟩

/-- Modelled from the spec: `MediaItem.fill_in_missing_children`
(`program/media/item.py`, not under src/): the merge "fill[s] missing
children (Show/Season)" — children of the incoming item whose `item_id` is
absent from the existing item's children are appended. -/
def fill_in_missing_children (ex inc : MediaItem) : MediaItem :=
  match ex, inc with
  | .show a ss, .show _ ts =>
      .show a (ss ++ ts.filter (fun t => !ss.any (fun s => (attrsOf s).item_id == (attrsOf t).item_id)))
  | .season a es p, .season _ fs _ =>
      .season a (es ++ fs.filter (fun f => !es.any (fun e => (attrsOf e).item_id == (attrsOf f).item_id))) p
  | _, _ => ex

/-- Modelled from the spec: `MediaItem.copy_other_media_attr`
(`program/media/item.py`, not under src/) copies the non-structural
attributes of the incoming item; represented here by the `title` field,
the only non-structural attribute this model carries beyond the ones the
router reads. -/
def copy_other_media_attr (ex inc : MediaItem) : MediaItem :=
  mapAttrs (fun a => { a with title := (attrsOf inc).title }) ex

/-- The in-place merge performed by `process_event` lines 36–40 on an
existing item with unset `indexed_at`: fill missing children when the
incoming item is a Show or Season, copy the other media attributes, and set
`indexed_at` from the incoming item. -/
def mergeIndexed (ex inc : MediaItem) : MediaItem :=
  let ex1 :=
    match inc with
    | .show _ _ => fill_in_missing_children ex inc
    | .season _ _ _ => fill_in_missing_children ex inc
    | _ => ex
  let ex2 := copy_other_media_attr ex1 inc
  mapAttrs (fun a => { a with indexed_at := (attrsOf inc).indexed_at }) ex2

/-- The value of the caller's existing item after the Indexed branch ran:
merged when its `indexed_at` was unset, untouched otherwise. -/
def postMergeExisting (ex it : MediaItem) : MediaItem :=
  if (attrsOf ex).indexed_at.isNone then mergeIndexed ex it else ex

/-- The scrape expansion of `process_event` lines 44–63: which sub-items go
to the Scraper for the (possibly merged) item. -/
def scrapeExpansion (pr : Probes) (it : MediaItem) : List (Option MediaItem) :=
  if pr.can_we_scrape it then
    match it with
    | .movie _ => [some it]
    | .episode _ => [some it]
    | .show _ ss =>
        (ss.filter (fun s =>
          (state s != States.Completed && state s != States.Downloaded
            && state s != States.Scraped) && pr.can_we_scrape s)).map some
    | .season a es _ =>
        if 4 ≤ a.scraped_times then
          (es.filter (fun e =>
            (state e != States.Completed && state e != States.Downloaded
              && state e != States.Scraped) && pr.can_we_scrape e)).map some
        else [some it]
  else []

/-- Branch 1 of `process_event` (lines 24–31): emitted by a source service,
or state `Unknown`; route to the TraktIndexer, promoting a Season (and the
existing item) to its parent Show, and stop when the existing item does not
pass `TraktIndexer.should_submit`. -/
def indexerBranch (pr : Probes) (existing_item : Option MediaItem) (it : MediaItem) : RouterCall :=
  let promoted : Option MediaItem × Option MediaItem :=
    match it with
    | .season _ _ p => (p, existing_item.bind parentOf)
    | _ => (some it, existing_item)
  match promoted.2 with
  | some ex =>
      if !pr.trakt_should_submit ex then ⟨noFurtherProcessing, existing_item⟩
      else ⟨⟨none, some .TraktIndexer, [promoted.1]⟩, existing_item⟩
  | none => ⟨⟨none, some .TraktIndexer, [promoted.1]⟩, existing_item⟩

/-- Branch 2 of `process_event` (lines 33–63): emitted by the TraktIndexer,
or state `Indexed`; merge into the existing item when its `indexed_at` is
unset, short-circuit when the (merged) existing item is `Completed`, else
route the merged item to the Scraper with the scrape expansion. -/
def indexedBranch (pr : Probes) (existing_item : Option MediaItem) (it : MediaItem) : RouterCall :=
  match existing_item with
  | some ex =>
      let exA := postMergeExisting ex it
      let it2 := if (attrsOf ex).indexed_at.isNone then exA else it
      if state exA = States.Completed then ⟨⟨some exA, none, []⟩, some exA⟩
      else ⟨⟨some it2, some .Scraping, scrapeExpansion pr it2⟩, some exA⟩
  | none => ⟨⟨some it, some .Scraping, scrapeExpansion pr it⟩, none⟩

/-- Branch 3 of `process_event` (lines 65–78): state `PartiallyCompleted`. -/
def partiallyCompletedBranch (pr : Probes) (existing_item : Option MediaItem) (it : MediaItem) : RouterCall :=
  let subs : List (Option MediaItem) :=
    match it with
    | .show _ ss =>
        (ss.filter (fun s =>
          (state s != States.Completed && state s != States.PartiallyCompleted)
            && pr.can_we_scrape s)).map some
    | .season _ es _ =>
        (es.filter (fun e => state e == States.Indexed && pr.can_we_scrape e)).map some
    | _ => []
  ⟨⟨some it, some .Scraping, subs⟩, existing_item⟩

/-- Branch 4 of `process_event` (lines 80–82): state `Scraped`. -/
def scrapedBranch (existing_item : Option MediaItem) (it : MediaItem) : RouterCall :=
  ⟨⟨some it, some .Downloader, [some it]⟩, existing_item⟩

/-- Branch 5 of `process_event` (lines 84–104): state `Downloaded`, the
container-aware Symlinker branch. -/
def downloadedBranch (pr : Probes) (existing_item : Option MediaItem) (it : MediaItem) : RouterCall :=
  let proposed : List MediaItem :=
    match it with
    | .show _ ss =>
        if (ss.filter (fun s => !(attrsOf s).symlinked)).all
            (fun s => truthy (attrsOf s).file && truthy (attrsOf s).folder) then [it]
        else ss.filter (fun s =>
          !(attrsOf s).symlinked && (truthy (attrsOf s).file && truthy (attrsOf s).folder))
    | .season _ es _ =>
        if (es.filter (fun e => !(attrsOf e).symlinked)).all
            (fun e => truthy (attrsOf e).file && truthy (attrsOf e).folder) then [it]
        else es.filter (fun e =>
          !(attrsOf e).symlinked && (truthy (attrsOf e).file && truthy (attrsOf e).folder))
    | .movie _ => [it]
    | .episode _ => [it]
  ⟨⟨some it, some .Symlinker, (proposed.filter pr.symlink_should_submit).map some⟩, existing_item⟩

/-- The second `state == Downloaded` branch of `process_event`
(lines 106–112), textually present in the source but shadowed by the first
one in the same if/elif chain. -/
def downloadedBranchDup (pr : Probes) (existing_item : Option MediaItem) (it : MediaItem) : RouterCall :=
  ⟨⟨some it, some .Symlinker, if pr.symlink_should_submit it then [some it] else []⟩, existing_item⟩

/-- Branch 7 of `process_event` (lines 114–116): state `Symlinked`. -/
def symlinkedBranch (existing_item : Option MediaItem) (it : MediaItem) : RouterCall :=
  ⟨⟨some it, some .PlexUpdater, [some it]⟩, existing_item⟩

/-- The full if/elif chain of `process_event`
(`src/backend/program/state_transition.py`), including the shadowed second
`Downloaded` branch, together with its heap effect on the existing item.
The final line is the fall-through `return updated_item, next_service,
items_to_submit` with the initial values of those locals. -/
def process_event_call (pr : Probes) (existing_item : Option MediaItem)
    (emitted_by : Service) (it : MediaItem) : RouterCall :=
  if emitted_by ∈ sourceServices ∨ state it = States.Unknown then
    indexerBranch pr existing_item it
  else if emitted_by = Service.TraktIndexer ∨ state it = States.Indexed then
    indexedBranch pr existing_item it
  else if state it = States.PartiallyCompleted then
    partiallyCompletedBranch pr existing_item it
  else if state it = States.Scraped then
    scrapedBranch existing_item it
  else if state it = States.Downloaded then
    downloadedBranch pr existing_item it
  else if state it = States.Downloaded then
    downloadedBranchDup pr existing_item it
  else if state it = States.Symlinked then
    symlinkedBranch existing_item it
  else if state it = States.Completed then
    ⟨noFurtherProcessing, existing_item⟩
  else
    ⟨⟨some it, none, []⟩, existing_item⟩

/-- `process_event(existing_item, emitted_by, item)`: the returned triple. -/
def process_event (pr : Probes) (existing_item : Option MediaItem)
    (emitted_by : Service) (it : MediaItem) : ProcessedEvent :=
  (process_event_call pr existing_item emitted_by it).result

/-- The same chain with the shadowed second `Downloaded` branch removed. -/
def process_event_call_noDup (pr : Probes) (existing_item : Option MediaItem)
    (emitted_by : Service) (it : MediaItem) : RouterCall :=
  if emitted_by ∈ sourceServices ∨ state it = States.Unknown then
    indexerBranch pr existing_item it
  else if emitted_by = Service.TraktIndexer ∨ state it = States.Indexed then
    indexedBranch pr existing_item it
  else if state it = States.PartiallyCompleted then
    partiallyCompletedBranch pr existing_item it
  else if state it = States.Scraped then
    scrapedBranch existing_item it
  else if state it = States.Downloaded then
    downloadedBranch pr existing_item it
  else if state it = States.Symlinked then
    symlinkedBranch existing_item it
  else if state it = States.Completed then
    ⟨noFurtherProcessing, existing_item⟩
  else
    ⟨⟨some it, none, []⟩, existing_item⟩

/-- The submission loop of `Program.run` (`program.py` lines 226–231): each
item of `items_to_submit` is submitted to the pool with the chosen next
service, except that a Season bound for the Scraper with
`scraped_times >= 3` is skipped. -/
def dispatch_submissions (next_service : Option Service) :
    List (Option MediaItem) → List (Option Service × Option MediaItem)
  | [] => []
  | s :: rest =>
      match s with
      | some (.season a _ _) =>
          if next_service == some Service.Scraping && 3 ≤ a.scraped_times then
            dispatch_submissions next_service rest
          else (next_service, s) :: dispatch_submissions next_service rest
      | _ => (next_service, s) :: dispatch_submissions next_service rest

/-- An event on the dispatcher queue: `Event(emitted_by=..., item=...)`. -/
structure Event where
  emitted_by : Service
  item : MediaItem
deriving DecidableEq

/-- A value yielded by a service's `run`: a `MediaItem` or something else
(dropped with a warning by the callback). -/
inductive YieldValue where
  | media (m : MediaItem)
  | other
deriving DecidableEq

/-- Modelled from the spec: the outcome of a worker-pool future as observed
by `Program._process_future_item` — the service modules are not under src/,
and per §6/§7 `future.result()` either raises the exception the service's
`run` raised or returns its finite iterable of yields. -/
inductive FutureOutcome where
  | raised
  | completed (ys : List YieldValue)
deriving DecidableEq

/-- The events `Program._process_future_item` (`program.py` lines 183–192)
puts on the event queue for one future: none when `future.result()` raises
(the exception is caught and only logged — the function is total), else one
event per yielded `MediaItem`, non-items skipped. -/
def process_future_item (service : Service) : FutureOutcome → List Event
  | .raised => []
  | .completed ys =>
      ys.filterMap (fun y =>
        match y with
        | .media m => some ⟨service, m⟩
        | .other => none)

/-- The state the pool callback can touch: the event queue and the media-item
container (the graph keyed by `item_id`). -/
structure DispatcherState where
  event_queue : List Event
  media_items : List (String × MediaItem)
deriving DecidableEq

/-- The effect of the pool callback on the dispatcher state: it appends the
produced events to the queue and touches nothing else. -/
def futureCallback (st : DispatcherState) (service : Service)
    (outcome : FutureOutcome) : DispatcherState :=
  ⟨st.event_queue ++ process_future_item service outcome, st.media_items⟩

/-- The service registry of `Program`, reduced to the `initialized` flags
that `Program.validate` reads, one list per service group. -/
structure ServiceRegistry where
  requesting_services : List Bool
  library_services : List Bool
  indexing_services : List Bool
  processing_services : List Bool

/-- `Program.validate` (`program.py` lines 80–89): `all` of the tuple
`(any requesting, any library, any indexing, all processing)`. -/
def validate (r : ServiceRegistry) : Bool :=
  (r.requesting_services.any id && r.library_services.any id
    && r.indexing_services.any id) && r.processing_services.all id

/-- Is the item a Season? (`isinstance(item, Season)`). -/
def isSeasonItem : MediaItem → Bool
  | .season _ _ _ => true
  | _ => false

/-- The item the Indexed branch routes onward: the merged existing item when
the merge fired, the incoming item otherwise. -/
def mergedItem (ex? : Option MediaItem) (it : MediaItem) : MediaItem :=
  match ex? with
  | some ex => if (attrsOf ex).indexed_at.isNone then mergeIndexed ex it else it
  | none => it

/-- The exact condition under which `process_event` mutates the caller's
existing item: the chain reaches the Indexed branch and the existing item's
`indexed_at` is unset. -/
def mergeFires (em : Service) (it ex : MediaItem) : Prop :=
  ¬(em ∈ sourceServices ∨ state it = States.Unknown)
  ∧ (em = Service.TraktIndexer ∨ state it = States.Indexed)
  ∧ (attrsOf ex).indexed_at = none

/-- The dispatcher's drop condition (`program.py` lines 227–229): a Season
bound for the Scraper that has already been scraped three times. -/
def seasonCutoff (next_service : Option Service) (s : Option MediaItem) : Bool :=
  match s with
  | some (.season a _ _) => next_service == some Service.Scraping && 3 ≤ a.scraped_times
  | _ => false

/-- Probes that accept everything. -/
def probesTrue : Probes := ⟨fun _ => true, fun _ => true, fun _ => true⟩

/-- Probes whose `can_we_scrape` rejects everything. -/
def probesNoScrape : Probes := ⟨fun _ => false, fun _ => true, fun _ => true⟩

/-- Probes whose `TraktIndexer.should_submit` rejects everything (every
existing item counts as freshly indexed). -/
def probesSkipIndex : Probes := ⟨fun _ => true, fun _ => false, fun _ => true⟩

/-- A movie with nothing set: state `Unknown`. -/
def movieUnknown : MediaItem := .movie ⟨"m1", none, none, 0, none, none, false, false, false⟩

/-- A stored movie already indexed (state `Indexed`), with its own title and
scrape counter. -/
def movieIndexed : MediaItem := .movie ⟨"m1", some "old", some 5, 7, none, none, false, false, false⟩

/-- A freshly indexed incoming copy of the same movie (state `Indexed`). -/
def movieIncoming : MediaItem := .movie ⟨"m1", some "new", some 9, 0, none, none, false, false, false⟩

/-- A stored movie that was never indexed (`indexed_at` unset). -/
def movieUnindexed : MediaItem := .movie ⟨"m1", some "old", none, 7, none, none, false, false, false⟩

/-- A stored movie in state `Completed` (symlinked and known to the library). -/
def movieCompleted : MediaItem := .movie ⟨"m1", none, some 5, 0, some "f.mkv", some "d", true, true, false⟩

/-- A movie in state `Scraped` (a viable torrent was selected). -/
def movieScraped : MediaItem := .movie ⟨"m2", none, some 1, 0, none, none, false, false, true⟩

/-- Attributes of a childless indexed season, never scraped. -/
def seasonAttrs : Attrs := ⟨"s1", none, some 1, 0, none, none, false, false, false⟩

/-- A childless indexed season (state `Indexed`), never scraped. -/
def seasonIndexed : MediaItem := .season seasonAttrs [] none

theorem process_event_call_source (pr : Probes) (ex? : Option MediaItem) (em : Service)
    (it : MediaItem) (h : em ∈ sourceServices ∨ state it = States.Unknown) :
    process_event_call pr ex? em it = indexerBranch pr ex? it := by
  unfold process_event_call
  rw [if_pos h]

theorem process_event_call_indexed (pr : Probes) (ex? : Option MediaItem) (em : Service)
    (it : MediaItem) (h1 : ¬(em ∈ sourceServices ∨ state it = States.Unknown))
    (h2 : em = Service.TraktIndexer ∨ state it = States.Indexed) :
    process_event_call pr ex? em it = indexedBranch pr ex? it := by
  unfold process_event_call
  rw [if_neg h1, if_pos h2]

theorem indexerBranch_existing (pr : Probes) (ex? : Option MediaItem) (it : MediaItem) :
    (indexerBranch pr ex? it).existing_after = ex? := by
  unfold indexerBranch
  cases it <;> dsimp only <;> (try split) <;> (try split) <;> rfl

theorem indexedBranch_existing (pr : Probes) (ex it : MediaItem) :
    (indexedBranch pr (some ex) it).existing_after = some (postMergeExisting ex it) := by
  unfold indexedBranch
  dsimp only
  split <;> rfl

/-- C1 (amended): for every event whose emitter is a source service, or whose
incoming item's state is `Unknown`, `process_event` selects the TraktIndexer
as next service with the single submission `[item]`; an incoming Season is
promoted to its parent Show and the existing item is promoted similarly; and
when the (promoted) existing item fails `TraktIndexer.should_submit` (it is
already freshly indexed) the router returns no further processing
`(None, None, [])`. The emitter sentinel `Self` (the `Program` class) does
not take this branch: it is absent from `source_services`. -/
theorem indexer_routing (pr : Probes) (ex? : Option MediaItem) (em : Service) (it : MediaItem)
    (h : em ∈ sourceServices ∨ state it = States.Unknown) :
    (isSeasonItem it = false →
      ((∀ ex, ex? = some ex → pr.trakt_should_submit ex = true) →
        process_event pr ex? em it = ⟨none, some Service.TraktIndexer, [some it]⟩)
      ∧ (∀ ex, ex? = some ex → pr.trakt_should_submit ex = false →
        process_event pr ex? em it = noFurtherProcessing))
    ∧ (∀ a es p?, it = MediaItem.season a es p? →
        (ex?.bind parentOf = none →
          process_event pr ex? em it = ⟨none, some Service.TraktIndexer, [p?]⟩)
        ∧ (∀ pe, ex?.bind parentOf = some pe →
            (pr.trakt_should_submit pe = true →
              process_event pr ex? em it = ⟨none, some Service.TraktIndexer, [p?]⟩)
            ∧ (pr.trakt_should_submit pe = false →
              process_event pr ex? em it = noFurtherProcessing))) := by
  have hpe : process_event pr ex? em it = (indexerBranch pr ex? it).result := by
    unfold process_event
    rw [process_event_call_source pr ex? em it h]
  constructor
  · intro hns
    constructor
    · intro hall
      rw [hpe]
      rcases it with a | ⟨a, ss⟩ | ⟨a, es, p⟩ | a
      · rcases ex? with _ | ex
        · rfl
        · simp [indexerBranch, hall ex rfl]
      · rcases ex? with _ | ex
        · rfl
        · simp [indexerBranch, hall ex rfl]
      · simp [isSeasonItem] at hns
      · rcases ex? with _ | ex
        · rfl
        · simp [indexerBranch, hall ex rfl]
    · intro ex hex hskip
      subst hex
      rw [hpe]
      rcases it with a | ⟨a, ss⟩ | ⟨a, es, p⟩ | a
      · simp [indexerBranch, hskip, noFurtherProcessing]
      · simp [indexerBranch, hskip, noFurtherProcessing]
      · simp [isSeasonItem] at hns
      · simp [indexerBranch, hskip, noFurtherProcessing]
  · intro a es p? heq
    subst heq
    constructor
    · intro hb
      rw [hpe]
      unfold indexerBranch
      dsimp only
      rw [hb]
    · intro pe hb
      constructor
      · intro hsub
        rw [hpe]
        unfold indexerBranch
        dsimp only
        rw [hb]
        simp [hsub]
      · intro hskip
        rw [hpe]
        unfold indexerBranch
        dsimp only
        rw [hb]
        simp [hskip, noFurtherProcessing]

/-- C1 witness: a source-emitted movie with no stored copy is routed to the
TraktIndexer with itself as the single submission. -/
theorem indexer_routing_witness :
    (Service.Overseerr ∈ sourceServices ∨ state movieIndexed = States.Unknown)
    ∧ process_event probesTrue none Service.Overseerr movieIndexed
        = ⟨none, some Service.TraktIndexer, [some movieIndexed]⟩ :=
  ⟨by decide,
    ((indexer_routing probesTrue none Service.Overseerr movieIndexed (by decide)).1
        (by decide)).1 (fun ex hex => by cases hex)⟩

/-- C1 counterexample: the spec's `Self` sentinel (the `Program` class, the
emitter of retry-sweep and externally enqueued events) is absent from
`source_services`, so a Self-emitted movie in state `Scraped` is routed to
the Downloader, not to the Indexer as the claim states. -/
theorem indexer_routing_counterexample :
    process_event probesTrue none Service.Program movieScraped
      = ⟨some movieScraped, some Service.Downloader, [some movieScraped]⟩
    ∧ (process_event probesTrue none Service.Program movieScraped).next_service
        ≠ some Service.TraktIndexer := by
  decide

theorem indexedBranch_result (pr : Probes) (ex it : MediaItem) :
    (indexedBranch pr (some ex) it).result =
      if state (postMergeExisting ex it) = States.Completed
      then ⟨some (postMergeExisting ex it), none, []⟩
      else ⟨some (mergedItem (some ex) it), some Service.Scraping,
            scrapeExpansion pr (mergedItem (some ex) it)⟩ := by
  unfold indexedBranch mergedItem postMergeExisting
  dsimp only
  by_cases hn : (attrsOf ex).indexed_at.isNone <;> simp [hn] <;> split <;> rfl

/-- C2 (amended): for every event whose emitter is the Indexer or whose
incoming item's state is `Indexed` (and that does not take the source
branch), when an existing item is present whose `indexed_at` is unset,
`process_event` merges the incoming item into the existing one — filling
missing children for Show/Season, copying the non-structural attributes and
setting `indexed_at` — and routes the merged item; when the existing item
was already indexed no merge happens and the incoming item is routed
unchanged; in both cases, if the (possibly merged) existing item's state is
`Completed`, the call returns exactly `(existing, None, [])` with no
submissions. -/
theorem indexed_merge (pr : Probes) (ex : MediaItem) (em : Service) (it : MediaItem)
    (h1 : ¬(em ∈ sourceServices ∨ state it = States.Unknown))
    (h2 : em = Service.TraktIndexer ∨ state it = States.Indexed) :
    ((attrsOf ex).indexed_at = none →
      (process_event_call pr (some ex) em it).existing_after = some (mergeIndexed ex it)
      ∧ (state (mergeIndexed ex it) = States.Completed →
          process_event pr (some ex) em it = ⟨some (mergeIndexed ex it), none, []⟩)
      ∧ (state (mergeIndexed ex it) ≠ States.Completed →
          process_event pr (some ex) em it
            = ⟨some (mergeIndexed ex it), some Service.Scraping,
                scrapeExpansion pr (mergeIndexed ex it)⟩))
    ∧ ((attrsOf ex).indexed_at ≠ none →
      (process_event_call pr (some ex) em it).existing_after = some ex
      ∧ (state ex = States.Completed →
          process_event pr (some ex) em it = ⟨some ex, none, []⟩)
      ∧ (state ex ≠ States.Completed →
          process_event pr (some ex) em it
            = ⟨some it, some Service.Scraping, scrapeExpansion pr it⟩)) := by
  have hcall : process_event_call pr (some ex) em it = indexedBranch pr (some ex) it :=
    process_event_call_indexed pr (some ex) em it h1 h2
  have hres : process_event pr (some ex) em it = (indexedBranch pr (some ex) it).result := by
    unfold process_event
    rw [hcall]
  constructor
  · intro hnone
    have hpm : postMergeExisting ex it = mergeIndexed ex it := by
      simp [postMergeExisting, hnone]
    have hmi : mergedItem (some ex) it = mergeIndexed ex it := by
      simp [mergedItem, hnone]
    refine ⟨?_, ?_, ?_⟩
    · rw [hcall, indexedBranch_existing, hpm]
    · intro hc
      rw [hres, indexedBranch_result, hpm, hmi, if_pos hc]
    · intro hc
      rw [hres, indexedBranch_result, hpm, hmi, if_neg hc]
  · intro hsome
    have hpm : postMergeExisting ex it = ex := by
      simp [postMergeExisting, Option.isNone_iff_eq_none, hsome]
    have hmi : mergedItem (some ex) it = it := by
      simp [mergedItem, Option.isNone_iff_eq_none, hsome]
    refine ⟨?_, ?_, ?_⟩
    · rw [hcall, indexedBranch_existing, hpm]
    · intro hc
      rw [hres, indexedBranch_result, hpm, hmi, if_pos hc]
    · intro hc
      rw [hres, indexedBranch_result, hpm, hmi, if_neg hc]

/-- C2 witness: an existing movie that was never indexed is merged with the
freshly indexed incoming copy, mutating the stored object to the merge. -/
theorem indexed_merge_witness :
    (attrsOf movieUnindexed).indexed_at = none
    ∧ (process_event_call probesNoScrape (some movieUnindexed) Service.TraktIndexer
        movieIncoming).existing_after = some (mergeIndexed movieUnindexed movieIncoming) :=
  ⟨rfl,
    ((indexed_merge probesNoScrape movieUnindexed Service.TraktIndexer movieIncoming
        (by decide) (Or.inl rfl)).1 rfl).1⟩

/-- C2 counterexample: when the existing item already has `indexed_at` set,
no merge happens — the router returns the incoming item unchanged, not the
merge of incoming into existing, and the stored item keeps its stale
attributes. -/
theorem indexed_merge_counterexample :
    (process_event probesNoScrape (some movieIndexed) Service.TraktIndexer
        movieIncoming).updated_item ≠ some (mergeIndexed movieIndexed movieIncoming)
    ∧ (process_event_call probesNoScrape (some movieIndexed) Service.TraktIndexer
        movieIncoming).existing_after = some movieIndexed := by
  decide

theorem indexed_routes_to_scraper (pr : Probes) (ex? : Option MediaItem) (em : Service)
    (it : MediaItem)
    (h1 : ¬(em ∈ sourceServices ∨ state it = States.Unknown))
    (h2 : em = Service.TraktIndexer ∨ state it = States.Indexed)
    (h3 : ∀ ex, ex? = some ex → state (postMergeExisting ex it) ≠ States.Completed) :
    process_event pr ex? em it
      = ⟨some (mergedItem ex? it), some Service.Scraping,
          scrapeExpansion pr (mergedItem ex? it)⟩ := by
  have hcall := process_event_call_indexed pr ex? em it h1 h2
  unfold process_event
  rw [hcall]
  rcases ex? with _ | ex
  · rfl
  · rw [indexedBranch_result, if_neg (h3 ex rfl)]

/-- C4 (amended): the whole scrape expansion of the Indexed branch sits
behind `can_we_scrape(item)` applied to the (merged) item itself: when that
probe fails, no submissions are made at all; when it passes, a Season with
`scraped_times >= 4` submits exactly its episodes whose state is not in
{Completed, Downloaded, Scraped} and that pass `can_we_scrape`, a Season
with `scraped_times < 4` submits itself, and a Show submits exactly its
seasons whose state is not in that set and that pass `can_we_scrape`. -/
theorem scrape_expansion_cases (pr : Probes) (ex? : Option MediaItem) (em : Service)
    (it : MediaItem)
    (h1 : ¬(em ∈ sourceServices ∨ state it = States.Unknown))
    (h2 : em = Service.TraktIndexer ∨ state it = States.Indexed)
    (h3 : ∀ ex, ex? = some ex → state (postMergeExisting ex it) ≠ States.Completed) :
    (pr.can_we_scrape (mergedItem ex? it) = false →
      (process_event pr ex? em it).items_to_submit = [])
    ∧ (pr.can_we_scrape (mergedItem ex? it) = true →
      (∀ a ss, mergedItem ex? it = MediaItem.show a ss →
        (process_event pr ex? em it).items_to_submit
          = (ss.filter (fun s =>
              (state s != States.Completed && state s != States.Downloaded
                && state s != States.Scraped) && pr.can_we_scrape s)).map some)
      ∧ (∀ a es p, mergedItem ex? it = MediaItem.season a es p → 4 ≤ a.scraped_times →
        (process_event pr ex? em it).items_to_submit
          = (es.filter (fun e =>
              (state e != States.Completed && state e != States.Downloaded
                && state e != States.Scraped) && pr.can_we_scrape e)).map some)
      ∧ (∀ a es p, mergedItem ex? it = MediaItem.season a es p → a.scraped_times < 4 →
        (process_event pr ex? em it).items_to_submit = [some (mergedItem ex? it)])) := by
  have hroute := indexed_routes_to_scraper pr ex? em it h1 h2 h3
  constructor
  · intro h4
    rw [hroute]
    dsimp only
    simp [scrapeExpansion, h4]
  · intro h4
    refine ⟨?_, ?_, ?_⟩
    · intro a ss heq
      rw [hroute]
      dsimp only
      rw [heq] at h4 ⊢
      simp [scrapeExpansion, h4]
    · intro a es p heq h5
      rw [hroute]
      dsimp only
      rw [heq] at h4 ⊢
      simp [scrapeExpansion, h4, h5]
    · intro a es p heq h5
      rw [hroute]
      dsimp only
      rw [heq] at h4 ⊢
      have h6 : ¬ 4 ≤ a.scraped_times := by omega
      simp [scrapeExpansion, h4, h6]

/-- C4 witness: a never-scraped indexed season with no stored copy, passing
the probe, is submitted to the Scraper as itself (whole-season scrape
first). -/
theorem scrape_expansion_cases_witness :
    seasonAttrs.scraped_times < 4
    ∧ (process_event probesTrue none Service.TraktIndexer seasonIndexed).items_to_submit
        = [some seasonIndexed] :=
  ⟨by decide,
    ((scrape_expansion_cases probesTrue none Service.TraktIndexer seasonIndexed
        (by decide) (Or.inl rfl) (fun ex hex => nomatch hex)).2 (by decide)).2.2
      seasonAttrs [] none rfl (by decide)⟩

/-- C4 counterexample: the claim's unconditional Season case fails on the
code — the whole expansion is guarded by `can_we_scrape(item)` at
`state_transition.py` line 44, so a never-scraped indexed season that fails
the container-level probe submits nothing, not itself. -/
theorem scrape_expansion_cases_counterexample :
    seasonAttrs.scraped_times < 4
    ∧ (process_event probesNoScrape none Service.TraktIndexer seasonIndexed).items_to_submit
        ≠ [some seasonIndexed]
    ∧ (process_event probesNoScrape none Service.TraktIndexer seasonIndexed).items_to_submit
        = [] := by
  decide

/-- C5 (amended): `process_event` is deterministic — equal inputs give equal
outputs — but it is not mutation-free: the caller's existing item is left
untouched in every branch except when the Indexed branch fires on an
existing item with unset `indexed_at`, in which case it is mutated in place
to exactly the documented merge of the incoming item into it. -/
theorem router_frame (pr : Probes) (ex? : Option MediaItem) (em : Service) (it : MediaItem) :
    (process_event_call pr ex? em it).existing_after = ex?
    ∨ ∃ ex, ex? = some ex ∧ mergeFires em it ex
        ∧ (process_event_call pr ex? em it).existing_after = some (mergeIndexed ex it) := by
  unfold process_event_call
  by_cases h1 : em ∈ sourceServices ∨ state it = States.Unknown
  · rw [if_pos h1]
    exact Or.inl (indexerBranch_existing pr ex? it)
  · rw [if_neg h1]
    by_cases h2 : em = Service.TraktIndexer ∨ state it = States.Indexed
    · rw [if_pos h2]
      rcases ex? with _ | ex
      · exact Or.inl rfl
      · by_cases hn : (attrsOf ex).indexed_at = none
        · refine Or.inr ⟨ex, rfl, ⟨h1, h2, hn⟩, ?_⟩
          rw [indexedBranch_existing]
          simp [postMergeExisting, hn]
        · left
          rw [indexedBranch_existing]
          simp [postMergeExisting, Option.isNone_iff_eq_none, hn]
    · rw [if_neg h2]
      left
      by_cases h3 : state it = States.PartiallyCompleted
      · rw [if_pos h3]
        rfl
      · rw [if_neg h3]
        by_cases h4 : state it = States.Scraped
        · rw [if_pos h4]
          rfl
        · rw [if_neg h4]
          by_cases h5 : state it = States.Downloaded
          · rw [if_pos h5]
            rfl
          · rw [if_neg h5, if_neg h5]
            by_cases h7 : state it = States.Symlinked
            · rw [if_pos h7]
              rfl
            · rw [if_neg h7]
              by_cases h8 : state it = States.Completed
              · rw [if_pos h8]
              · rw [if_neg h8]

/-- C5 counterexample: the router does mutate its `existing_item` argument —
merging a freshly indexed incoming movie into a stored never-indexed movie
changes the stored object's fields in place. -/
theorem router_frame_counterexample :
    (process_event_call probesNoScrape (some movieUnindexed) Service.TraktIndexer
        movieIncoming).existing_after ≠ some movieUnindexed := by
  decide

theorem dispatch_submissions_eq (next : Option Service) (subs : List (Option MediaItem)) :
    dispatch_submissions next subs
      = (subs.filter (fun s => !seasonCutoff next s)).map (fun s => (next, s)) := by
  induction subs with
  | nil => rfl
  | cons s rest ih =>
      rcases s with _ | m
      · simp [dispatch_submissions, seasonCutoff, ih]
      · rcases m with a | ⟨a, ss⟩ | ⟨a, es, p⟩ | a
        · simp [dispatch_submissions, seasonCutoff, ih]
        · simp [dispatch_submissions, seasonCutoff, ih]
        · by_cases hc : (next == some Service.Scraping && decide (3 ≤ a.scraped_times)) = true
          · simp [dispatch_submissions, seasonCutoff, hc, ih]
          · simp [dispatch_submissions, seasonCutoff, hc, ih]
        · simp [dispatch_submissions, seasonCutoff, ih]

/-- C3: in the dispatcher loop, a submission that is a Season bound for the
Scraper with `scraped_times >= 3` is dropped before pool submission, and
every other submission is passed to the pool with the chosen next service;
hence no submitted job is a Season bound for the Scraper that has already
been scraped three times. -/
theorem season_scraper_guard (next : Option Service) (subs : List (Option MediaItem)) :
    dispatch_submissions next subs
      = (subs.filter (fun s => !seasonCutoff next s)).map (fun s => (next, s))
    ∧ ∀ j ∈ dispatch_submissions next subs,
        seasonCutoff next j.2 = false ∧ j.1 = next ∧ j.2 ∈ subs := by
  refine ⟨dispatch_submissions_eq next subs, ?_⟩
  intro j hj
  rw [dispatch_submissions_eq] at hj
  simp only [List.mem_map, List.mem_filter] at hj
  obtain ⟨s, ⟨hs, hcut⟩, rfl⟩ := hj
  refine ⟨?_, rfl, hs⟩
  simpa using hcut

/-- C6 (amended): when a source service re-emits an item whose stored
existing item is already `Completed` and still freshly indexed
(`TraktIndexer.should_submit` rejects it), `process_event` returns
`(None, None, [])`: nothing is upserted, the stored item is not touched,
and no submission is made to the pool. -/
theorem idempotent_reindex (pr : Probes) (ex : MediaItem) (em : Service) (it : MediaItem)
    (hsrc : em ∈ sourceServices)
    (hns : isSeasonItem it = false)
    (_hcomp : state ex = States.Completed)
    (hskip : pr.trakt_should_submit ex = false) :
    process_event pr (some ex) em it = noFurtherProcessing
    ∧ (process_event_call pr (some ex) em it).existing_after = some ex := by
  have hcall : process_event_call pr (some ex) em it = indexerBranch pr (some ex) it :=
    process_event_call_source pr (some ex) em it (Or.inl hsrc)
  constructor
  · unfold process_event
    rw [hcall]
    rcases it with a | ⟨a, ss⟩ | ⟨a, es, p⟩ | a
    · simp [indexerBranch, hskip]
    · simp [indexerBranch, hskip]
    · simp [isSeasonItem] at hns
    · simp [indexerBranch, hskip]
  · rw [hcall, indexerBranch_existing]

/-- C6 witness: a completed stored movie re-emitted by Overseerr, with the
indexer probe rejecting it, yields no further processing. -/
theorem idempotent_reindex_witness :
    (Service.Overseerr ∈ sourceServices ∧ state movieCompleted = States.Completed)
    ∧ process_event probesSkipIndex (some movieCompleted) Service.Overseerr movieUnknown
        = noFurtherProcessing :=
  ⟨by decide,
    (idempotent_reindex probesSkipIndex movieCompleted Service.Overseerr movieUnknown
        (by decide) (by decide) (by decide) rfl).1⟩

/-- C6 counterexample: the short-circuit returns `(None, None, [])`, not
`(existing, None, [])` as the claim states — the updated-item slot of the
returned triple is `None`, not the stored item. -/
theorem idempotent_reindex_counterexample :
    state movieCompleted = States.Completed
    ∧ (process_event probesSkipIndex (some movieCompleted) Service.Overseerr
        movieUnknown).updated_item ≠ some movieCompleted := by
  decide

/-- C7: when a service invocation's `run` raises, the pool callback catches
the exception (it is a total function of the outcome), produces no event —
the queue receives nothing from that invocation — and leaves the media-item
container, hence the item's stored state, unchanged. -/
theorem pool_failure_no_event (st : DispatcherState) (service : Service) :
    futureCallback st service FutureOutcome.raised = st
    ∧ process_future_item service FutureOutcome.raised = [] := by
  constructor
  · simp [futureCallback, process_future_item]
  · rfl

/-- C8: `validate()` returns true iff at least one requesting service, one
library service and one indexing service are initialized and every
processing service is initialized. -/
theorem validate_iff (r : ServiceRegistry) :
    validate r = true ↔
      ((∃ b ∈ r.requesting_services, b = true)
        ∧ (∃ b ∈ r.library_services, b = true)
        ∧ (∃ b ∈ r.indexing_services, b = true)
        ∧ ∀ b ∈ r.processing_services, b = true) := by
  simp [validate, List.any_eq_true, List.all_eq_true, id, and_assoc]

/-- C9: the second `state == Downloaded` branch of `process_event` is
unreachable — the whole chain is extensionally equal to the chain with that
branch deleted, because the first `Downloaded` branch with the identical
guard is tested earlier. -/
theorem duplicated_downloaded_unreachable (pr : Probes) (ex? : Option MediaItem)
    (em : Service) (it : MediaItem) :
    process_event_call pr ex? em it = process_event_call_noDup pr ex? em it := by
  unfold process_event_call process_event_call_noDup
  by_cases h5 : state it = States.Downloaded <;> simp [h5]

/-- C10: whenever `process_event` returns a non-empty submissions list, the
returned next service is non-null, so the dispatcher never submits an item
to a null service. -/
theorem indexerBranch_service (pr : Probes) (ex? : Option MediaItem) (it : MediaItem) :
    (indexerBranch pr ex? it).result.next_service = none →
    (indexerBranch pr ex? it).result.items_to_submit = [] := by
  unfold indexerBranch
  rcases it with a | ⟨a, ss⟩ | ⟨a, es, p⟩ | a <;>
    dsimp only <;> split <;> (try split) <;> simp [noFurtherProcessing]

theorem indexedBranch_service (pr : Probes) (ex? : Option MediaItem) (it : MediaItem) :
    (indexedBranch pr ex? it).result.next_service = none →
    (indexedBranch pr ex? it).result.items_to_submit = [] := by
  unfold indexedBranch
  rcases ex? with _ | ex
  · simp
  · dsimp only
    split <;> simp

theorem submissions_have_service (pr : Probes) (ex? : Option MediaItem) (em : Service)
    (it : MediaItem)
    (h : (process_event pr ex? em it).items_to_submit ≠ []) :
    (process_event pr ex? em it).next_service ≠ none := by
  revert h
  unfold process_event process_event_call
  by_cases h1 : em ∈ sourceServices ∨ state it = States.Unknown
  · rw [if_pos h1]
    exact fun h hs => h (indexerBranch_service pr ex? it hs)
  · rw [if_neg h1]
    by_cases h2 : em = Service.TraktIndexer ∨ state it = States.Indexed
    · rw [if_pos h2]
      exact fun h hs => h (indexedBranch_service pr ex? it hs)
    · rw [if_neg h2]
      by_cases h3 : state it = States.PartiallyCompleted
      · rw [if_pos h3]
        intro _
        unfold partiallyCompletedBranch
        dsimp only
        simp
      · rw [if_neg h3]
        by_cases h4 : state it = States.Scraped
        · rw [if_pos h4]
          intro _
          simp [scrapedBranch]
        · rw [if_neg h4]
          by_cases h5 : state it = States.Downloaded
          · rw [if_pos h5]
            intro _
            unfold downloadedBranch
            dsimp only
            simp
          · rw [if_neg h5, if_neg h5]
            by_cases h7 : state it = States.Symlinked
            · rw [if_pos h7]
              intro _
              simp [symlinkedBranch]
            · rw [if_neg h7]
              by_cases h8 : state it = States.Completed
              · rw [if_pos h8]
                simp [noFurtherProcessing]
              · rw [if_neg h8]
                simp

/-- C10 witness: a source-emitted movie yields the non-empty submission list
`[item]`, and the next service is indeed non-null. -/
theorem submissions_have_service_witness :
    (process_event probesTrue none Service.Overseerr movieIndexed).items_to_submit ≠ []
    ∧ (process_event probesTrue none Service.Overseerr movieIndexed).next_service ≠ none :=
  ⟨by decide,
    submissions_have_service probesTrue none Service.Overseerr movieIndexed (by decide)⟩

end Iceberg
